import Mathlib

/-!
Verification development for the ctem-ingester repository.

The development shallowly embeds the parts of the ingestion service that the
checked properties talk about:

* `src/ingestion/src/utils/id_generation.py` — deterministic exposure and
  dedupe identifiers (SHA-256 over a pipe-joined field string, truncated).
* `src/ingestion/src/utils/security.py` — `sanitize_payload`.
* `src/ingestion/src/models/canonical.py` — the canonical event model
  (fields relevant to storage and sanitization).
* `src/ingestion/src/storage/repository.py` — audit append, the
  reconciliation merge (`_manual_upsert` and friends), `ingest_events`,
  and `quarantine_file`.

Machine integers are modelled as `Nat` with explicit reduction modulo `2^32`
where the SHA-256 compression function needs 32-bit wraparound; timestamps
are modelled as `Nat` (only their order and equality matter); fallible
storage calls are modelled with `Option`/`Except`.
-/

namespace CTEM

/-! ## SHA-256 over byte lists

A byte is a `Nat` below 256; a 32-bit word is a `Nat` below `2^32`.
This mirrors `hashlib.sha256(...).digest()` as used by
`src/ingestion/src/utils/id_generation.py`.
-/

/-- Reduce a natural number to a 32-bit word. -/
def w32 (x : Nat) : Nat := x % 4294967296

/-- Rotate a 32-bit word right by `n` bits. -/
def rotR32 (n x : Nat) : Nat := w32 ((x >>> n) ||| (x <<< (32 - n)))

/-- Bitwise complement of a 32-bit word. -/
def bnot32 (x : Nat) : Nat := x ^^^ 4294967295

/-- The 64 SHA-256 round constants (FIPS 180-4, section 4.2.2), written in
decimal. -/
def sha256K : List Nat :=
  [1116352408, 1899447441, 3049323471, 3921009573, 961987163,
   1508970993, 2453635748, 2870763221, 3624381080, 310598401,
   607225278, 1426881987, 1925078388, 2162078206, 2614888103,
   3248222580, 3835390401, 4022224774, 264347078, 604807628,
   770255983, 1249150122, 1555081692, 1996064986, 2554220882,
   2821834349, 2952996808, 3210313671, 3336571891, 3584528711,
   113926993, 338241895, 666307205, 773529912, 1294757372,
   1396182291, 1695183700, 1986661051, 2177026350, 2456956037,
   2730485921, 2820302411, 3259730800, 3345764771, 3516065817,
   3600352804, 4094571909, 275423344, 430227734, 506948616,
   659060556, 883997877, 958139571, 1322822218, 1537002063,
   1747873779, 1955562222, 2024104815, 2227730452, 2361852424,
   2428436474, 2756734187, 3204031479, 3329325298]

/-- The SHA-256 initial hash state (FIPS 180-4, section 5.3.3), in decimal. -/
def sha256Init : List Nat :=
  [1779033703, 3144134277, 1013904242, 2773480762,
   1359893119, 2600822924, 528734635, 1541459225]

/-- Big-endian byte rendering of a number on `k` bytes. -/
def beBytes : Nat → Nat → List Nat
  | 0, _ => []
  | k + 1, n => beBytes k (n >>> 8) ++ [n % 256]

/-- SHA-256 message padding: append `0x80`, zero bytes up to 56 mod 64,
then the bit length on 8 big-endian bytes. -/
def sha256Pad (msg : List Nat) : List Nat :=
  let padZeros := (119 - msg.length % 64) % 64
  msg ++ [0x80] ++ List.replicate padZeros 0 ++ beBytes 8 (8 * msg.length)

/-- Group a byte list into big-endian 32-bit words. -/
def toWords : List Nat → List Nat
  | b0 :: b1 :: b2 :: b3 :: rest =>
      ((b0 <<< 24) ||| (b1 <<< 16) ||| (b2 <<< 8) ||| b3) :: toWords rest
  | _ => []

/-- Message schedule function sigma0. -/
def schedSigma0 (x : Nat) : Nat := (rotR32 7 x) ^^^ (rotR32 18 x) ^^^ (x >>> 3)

/-- Message schedule function sigma1. -/
def schedSigma1 (x : Nat) : Nat := (rotR32 17 x) ^^^ (rotR32 19 x) ^^^ (x >>> 10)

/-- Compression function Sigma0. -/
def compSigma0 (x : Nat) : Nat := (rotR32 2 x) ^^^ (rotR32 13 x) ^^^ (rotR32 22 x)

/-- Compression function Sigma1. -/
def compSigma1 (x : Nat) : Nat := (rotR32 6 x) ^^^ (rotR32 11 x) ^^^ (rotR32 25 x)

/-- Extend the 16 block words to the 64-entry message schedule. -/
def sha256Schedule (ws : List Nat) : List Nat :=
  (List.range 48).foldl
    (fun acc _ =>
      acc ++ [w32 (schedSigma1 (acc.getD (acc.length - 2) 0) +
                   acc.getD (acc.length - 7) 0 +
                   schedSigma0 (acc.getD (acc.length - 15) 0) +
                   acc.getD (acc.length - 16) 0)])
    ws

/-- One SHA-256 compression round on the state `[a,b,c,d,e,f,g,h]`. -/
def sha256Round (st : List Nat) (k : Nat) (w : Nat) : List Nat :=
  match st with
  | [a, b, c, d, e, f, g, h] =>
      let ch := (e &&& f) ^^^ ((bnot32 e) &&& g)
      let t1 := w32 (h + compSigma1 e + ch + k + w)
      let maj := (a &&& b) ^^^ (a &&& c) ^^^ (b &&& c)
      let t2 := w32 (compSigma0 a + maj)
      [w32 (t1 + t2), a, b, c, w32 (d + t1), e, f, g]
  | _ => st

/-- Process one 64-byte block into the running hash state. -/
def sha256Block (h : List Nat) (block : List Nat) : List Nat :=
  let ws := sha256Schedule (toWords block)
  let st := (sha256K.zip ws).foldl (fun st kw => sha256Round st kw.1 kw.2) h
  List.zipWith (fun x y => w32 (x + y)) h st

/-- Fuel-driven worker for `chunksOf`; the fuel only bounds the recursion
depth (structural recursion keeps the definition kernel-reducible). -/
def chunksOfGo (n : Nat) : Nat → List α → List (List α)
  | _, [] => []
  | 0, _ => []
  | fuel + 1, l => l.take n :: chunksOfGo n fuel (l.drop n)

/-- Split a list into consecutive chunks of `n` elements (last may be short).
This models the Python `range(0, len(xs), n)` batching loops in
`src/ingestion/src/storage/repository.py` and the 64-byte block split of
SHA-256. -/
def chunksOf (n : Nat) (l : List α) : List (List α) :=
  chunksOfGo n l.length l

/-- SHA-256 digest of a byte list, as the 32 digest bytes. -/
def sha256 (msg : List Nat) : List Nat :=
  let hs := (chunksOf 64 (sha256Pad msg)).foldl sha256Block sha256Init
  (hs.map (beBytes 4)).flatten

/-! ## UTF-8 and hex rendering -/

/-- UTF-8 encoding of one character (code point), as bytes. -/
def charUtf8 (c : Char) : List Nat :=
  let n := c.toNat
  if n < 0x80 then [n]
  else if n < 0x800 then
    [0xC0 ||| (n >>> 6), 0x80 ||| (n &&& 0x3F)]
  else if n < 0x10000 then
    [0xE0 ||| (n >>> 12), 0x80 ||| ((n >>> 6) &&& 0x3F), 0x80 ||| (n &&& 0x3F)]
  else
    [0xF0 ||| (n >>> 18), 0x80 ||| ((n >>> 12) &&& 0x3F),
     0x80 ||| ((n >>> 6) &&& 0x3F), 0x80 ||| (n &&& 0x3F)]

/-- UTF-8 encoding of a string, modelling the Python `str.encode` call. -/
def utf8Bytes (s : String) : List Nat := s.data.flatMap charUtf8

/-- Lower-case hex digit for a value below 16. -/
def hexDigit (n : Nat) : Char :=
  if n < 10 then Char.ofNat (48 + n) else Char.ofNat (87 + n)

/-- Lower-case hex characters of a byte list, two characters per byte,
modelling the Python `bytes.hex()` call. -/
def hexChars : List Nat → List Char
  | [] => []
  | b :: bs => hexDigit (b / 16) :: hexDigit (b % 16) :: hexChars bs

/-! ## src/ingestion/src/utils/id_generation.py -/

/-- Python `str(dst_port) if dst_port is not None else ""`. -/
def portStr : Option Int → String
  | some p => toString p
  | none => ""

/-- Python `x or dflt` on an optional string: `None` and the empty string
are falsy, every other string is returned unchanged. -/
def pyOrStr (x : Option String) (dflt : String) : String :=
  match x with
  | none => dflt
  | some s => if s = "" then dflt else s

/-- The pipe-joined component string hashed by `generate_exposure_id`. -/
def exposureComponents (office_id asset_id dst_ip : String) (dst_port : Option Int)
    (protocol exposure_class : String) : String :=
  office_id ++ "|" ++ asset_id ++ "|" ++ dst_ip ++ "|" ++ portStr dst_port ++ "|"
    ++ protocol ++ "|" ++ exposure_class

/-- Embedding of `generate_exposure_id`: SHA-256 of the pipe-joined
six-field component string (absent port rendered as the empty string),
full digest hex, then the first 32 hex characters, exactly as
`hash_bytes.hex()[:32]` computes it. -/
def generate_exposure_id (office_id asset_id dst_ip : String) (dst_port : Option Int)
    (protocol exposure_class : String) : String :=
  let components := exposureComponents office_id asset_id dst_ip dst_port
    protocol exposure_class
  String.mk ((hexChars (sha256 (utf8Bytes components))).take 32)

/-- Embedding of `generate_dedupe_key`: the same construction with the
optional `service_product` (null treated as empty via Python `or`)
appended as a seventh pipe-separated field. -/
def generate_dedupe_key (office_id asset_id dst_ip : String) (dst_port : Option Int)
    (protocol exposure_class : String) (service_product : Option String) : String :=
  let port_str := portStr dst_port
  let product_str := pyOrStr service_product ""
  let components := office_id ++ "|" ++ asset_id ++ "|" ++ dst_ip ++ "|" ++ port_str
    ++ "|" ++ protocol ++ "|" ++ exposure_class ++ "|" ++ product_str
  String.mk ((hexChars (sha256 (utf8Bytes components))).take 32)

/-- Companion definition following the words of the specification text for
the identity generator: the first 16 bytes of the SHA-256 digest of the
pipe-joined six fields (absent port as empty string), rendered as 32 hex
characters. -/
def exposureIdSpec (office_id asset_id dst_ip : String) (dst_port : Option Int)
    (protocol exposure_class : String) : String :=
  String.mk (hexChars ((sha256 (utf8Bytes (exposureComponents office_id asset_id
    dst_ip dst_port protocol exposure_class))).take 16))

/-! ## src/ingestion/src/models/canonical.py

The canonical Pydantic model, embedded as plain structures.  Validation
bounds (severity range, port range, status/action alignment, ...) are
expressed as a decidable predicate below; timestamps are `Nat`.
-/

/-- Enumeration `EventKind`. -/
inductive EventKind | alert | state | event
deriving DecidableEq, Repr

/-- String value of an `EventKind`, as Python `.value`. -/
def EventKind.val : EventKind → String
  | .alert => "alert" | .state => "state" | .event => "event"

/-- Enumeration `EventAction`. -/
inductive EventAction
  | exposure_opened | exposure_observed | exposure_resolved | exposure_suppressed
deriving DecidableEq, Repr

/-- String value of an `EventAction`, as Python `.value`. -/
def EventAction.val : EventAction → String
  | .exposure_opened => "exposure_opened"
  | .exposure_observed => "exposure_observed"
  | .exposure_resolved => "exposure_resolved"
  | .exposure_suppressed => "exposure_suppressed"

/-- Enumeration `ExposureClass`. -/
inductive ExposureClass
  | http_content_leak | vcs_protocol_exposed | fileshare_exposed
  | remote_admin_exposed | db_exposed | container_api_exposed
  | debug_port_exposed | service_advertised_mdns | egress_tunnel_indicator
  | unknown_service_exposed
deriving DecidableEq, Repr

/-- String value of an `ExposureClass`, as Python `.value`. -/
def ExposureClass.val : ExposureClass → String
  | .http_content_leak => "http_content_leak"
  | .vcs_protocol_exposed => "vcs_protocol_exposed"
  | .fileshare_exposed => "fileshare_exposed"
  | .remote_admin_exposed => "remote_admin_exposed"
  | .db_exposed => "db_exposed"
  | .container_api_exposed => "container_api_exposed"
  | .debug_port_exposed => "debug_port_exposed"
  | .service_advertised_mdns => "service_advertised_mdns"
  | .egress_tunnel_indicator => "egress_tunnel_indicator"
  | .unknown_service_exposed => "unknown_service_exposed"

/-- Enumeration `ExposureStatus`. -/
inductive ExposureStatus | open | observed | resolved | suppressed
deriving DecidableEq, Repr

/-- String value of an `ExposureStatus`, as Python `.value`. -/
def ExposureStatus.val : ExposureStatus → String
  | .open => "open" | .observed => "observed"
  | .resolved => "resolved" | .suppressed => "suppressed"

/-- Enumeration `Transport`. -/
inductive Transport | tcp | udp | icmp | other
deriving DecidableEq, Repr

/-- String value of a `Transport`, as Python `.value`. -/
def Transport.val : Transport → String
  | .tcp => "tcp" | .udp => "udp" | .icmp => "icmp" | .other => "other"

/-- Enumeration `NetworkDirection`. -/
inductive NetworkDirection | internal | inbound | outbound | unknown
deriving DecidableEq, Repr

/-- String value of a `NetworkDirection`, as Python `.value`. -/
def NetworkDirection.val : NetworkDirection → String
  | .internal => "internal" | .inbound => "inbound"
  | .outbound => "outbound" | .unknown => "unknown"

/-- Enumeration `ServiceAuth`. -/
inductive ServiceAuth | unknown | required | not_required
deriving DecidableEq, Repr

/-- String value of a `ServiceAuth`, as Python `.value`. -/
def ServiceAuth.val : ServiceAuth → String
  | .unknown => "unknown" | .required => "required" | .not_required => "not_required"

/-- Enumeration `ServiceBindScope`. -/
inductive ServiceBindScope | loopback_only | local_subnet | any | unknown
deriving DecidableEq, Repr

/-- String value of a `ServiceBindScope`, as Python `.value`. -/
def ServiceBindScope.val : ServiceBindScope → String
  | .loopback_only => "loopback_only" | .local_subnet => "local_subnet"
  | .any => "any" | .unknown => "unknown"

/-- Enumeration `ResourceType`. -/
inductive ResourceType
  | http_path | smb_share | nfs_export | repo | api_endpoint | mdns_service | domain
deriving DecidableEq, Repr

/-- Enumeration `DataClassification`. -/
inductive DataClassification
  | source_code | secrets | pii | credentials | internal_only | unknown
deriving DecidableEq, Repr

/-- String value of a `DataClassification`, as Python `.value`. -/
def DataClassification.val : DataClassification → String
  | .source_code => "source_code" | .secrets => "secrets" | .pii => "pii"
  | .credentials => "credentials" | .internal_only => "internal_only"
  | .unknown => "unknown"

/-- Enumeration `ProbeResult`. -/
inductive ProbeResult | success | fail | timeout | blocked
deriving DecidableEq, Repr

/-- Nested model `EventCorrelation`. -/
structure EventCorrelation where
  scan_run_id : Option String := none
  scan_policy_id : Option String := none
  dedupe_key : Option String := none
deriving DecidableEq, Repr

/-- Nested model `Event` (identifier, kind, action, severity, ...). -/
structure Event where
  id : String
  kind : EventKind
  action : EventAction
  severity : Int
  reason : Option String := none
  risk_score : Option Rat := none
  correlation : Option EventCorrelation := none
deriving DecidableEq, Repr

/-- Nested model `Office`. -/
structure Office where
  id : String
  name : String
  region : Option String := none
  network_zone : Option String := none
deriving DecidableEq, Repr

/-- Nested model `Scanner`. -/
structure Scanner where
  id : String
  type : String
deriving DecidableEq, Repr

/-- Nested model `Asset`. -/
structure Asset where
  id : String
  hostname : Option String := none
  ip : Option (List String) := none
  mac : Option String := none
  os : Option String := none
  managed : Option Bool := none
deriving DecidableEq, Repr

/-- Nested model `Target`. -/
structure Target where
  asset : Asset
deriving DecidableEq, Repr

/-- Nested model `VectorDestination`. -/
structure VectorDestination where
  ip : Option String := none
  port : Option Int := none
deriving DecidableEq, Repr

/-- Nested model `Vector`. -/
structure Vector where
  transport : Transport
  protocol : String
  dst : Option VectorDestination := none
  network_direction : Option NetworkDirection := none
deriving DecidableEq, Repr

/-- Nested model `Service`. -/
structure Service where
  name : Option String := none
  product : Option String := none
  version : Option String := none
  tls : Option Bool := none
  auth : Option ServiceAuth := none
  bind_scope : Option ServiceBindScope := none
deriving DecidableEq, Repr

/-- Nested model `Resource`. -/
structure Resource where
  type : Option ResourceType := none
  identifier : Option String := none
  evidence_hash : Option String := none
deriving DecidableEq, Repr

/-- Nested model `Exposure`. -/
structure Exposure where
  id : String
  class_ : ExposureClass
  status : ExposureStatus
  vector : Vector
  service : Option Service := none
  resource : Option Resource := none
  data_class : Option (List DataClassification) := none
  confidence : Option Rat := none
  first_seen : Option Nat := none
  last_seen : Option Nat := none
deriving DecidableEq, Repr

/-- Nested model `HTTPEvidence`. -/
structure HTTPEvidence where
  status_code : Option Int := none
  title : Option String := none
  server_header : Option String := none
deriving DecidableEq, Repr

/-- Nested model `EvidenceItem`. -/
structure EvidenceItem where
  probe : Option String := none
  target : Option String := none
  result : Option ProbeResult := none
  http : Option HTTPEvidence := none
  raw_hash : Option String := none
deriving DecidableEq, Repr

/-- Nested model `Disposition`. -/
structure Disposition where
  ticket : Option String := none
  owner : Option String := none
  sla : Option String := none
  notes : Option String := none
deriving DecidableEq, Repr

/-- Root canonical model `ExposureEventModel`. -/
structure ExposureEventModel where
  schema_version : String
  timestamp : Nat
  event : Event
  office : Office
  scanner : Scanner
  target : Target
  exposure : Exposure
  evidence : Option (List EvidenceItem) := none
  disposition : Option Disposition := none
deriving DecidableEq, Repr

/-! ## src/ingestion/src/utils/security.py — sanitize_payload

The payload passed to `sanitize_payload` is the canonical event serialized
by `model_dump(mode="json", by_alias=True)`.  The dumped nested sections are
carried as their model values; the embedded HTTP evidence additionally
carries the `body`/`response_body` slots that `sanitize_payload` removes
unconditionally (a dump never populates them — the canonical model has no
such fields — but the code pops them defensively and the embedding keeps
that behaviour visible).
-/

/-- Dumped HTTP evidence dictionary, including the raw-body slots that
`sanitize_payload` strips. -/
structure HTTPEvidencePayload where
  status_code : Option Int := none
  title : Option String := none
  server_header : Option String := none
  body : Option String := none
  response_body : Option String := none
deriving DecidableEq, Repr

/-- Dumped evidence entry dictionary. -/
structure EvidenceItemPayload where
  probe : Option String := none
  target : Option String := none
  result : Option ProbeResult := none
  http : Option HTTPEvidencePayload := none
  raw_hash : Option String := none
deriving DecidableEq, Repr

/-- Dumped canonical event dictionary, at the granularity `sanitize_payload`
inspects: the `event`, `evidence` and `disposition` sections are explicit,
every other section is carried unchanged as its model value. -/
structure Payload where
  schema_version : String
  timestamp : Nat
  event : Event
  office : Office
  scanner : Scanner
  target : Target
  exposure : Exposure
  evidence : Option (List EvidenceItemPayload) := none
  disposition : Option Disposition := none
deriving DecidableEq, Repr

/-- Dump of one `HTTPEvidence` model value (no body slots are ever
produced by the canonical model). -/
def dumpHTTPEvidence (h : HTTPEvidence) : HTTPEvidencePayload :=
  { status_code := h.status_code, title := h.title, server_header := h.server_header }

/-- Dump of one `EvidenceItem` model value. -/
def dumpEvidenceItem (it : EvidenceItem) : EvidenceItemPayload :=
  { probe := it.probe, target := it.target, result := it.result
    http := it.http.map dumpHTTPEvidence, raw_hash := it.raw_hash }

/-- Embedding of the Python `model_dump(mode="json", by_alias=True)` call on
the root canonical model, at the granularity `sanitize_payload` needs. -/
def model_dump (e : ExposureEventModel) : Payload :=
  { schema_version := e.schema_version, timestamp := e.timestamp
    event := e.event, office := e.office, scanner := e.scanner
    target := e.target, exposure := e.exposure
    evidence := e.evidence.map (List.map dumpEvidenceItem)
    disposition := e.disposition }

/-- Sanitization of one embedded HTTP evidence dictionary: truncate a title
longer than 500 characters (appending the `...` marker) and remove the
`body`/`response_body` slots unconditionally.  A `None` or empty title is
left untouched by the source (both are subsumed by the 500-character test,
since an empty string is never longer than 500). -/
def sanitizeHTTP (h : HTTPEvidencePayload) : HTTPEvidencePayload :=
  { h with
    title := h.title.map (fun t => if t.length > 500 then t.take 500 ++ "..." else t)
    body := none
    response_body := none }

/-- Sanitization of one evidence entry: rewrite the embedded HTTP section
when it is present (a dumped HTTP section is a non-empty dictionary, hence
truthy in the source guard; an absent or `None` section is skipped). -/
def sanitizeEvidenceItem (it : EvidenceItemPayload) : EvidenceItemPayload :=
  { it with http := it.http.map sanitizeHTTP }

/-- Embedding of `sanitize_payload`:

* evidence entries: HTTP titles truncated at 500 characters, raw body
  slots removed (an absent or empty evidence list is skipped by the source
  guard, which coincides with mapping over it);
* `event.reason` truncated at 1000 characters with the `...` marker;
* `disposition.notes` truncated at 2000 characters with the `...` marker;
* everything else is returned unchanged. -/
def sanitize_payload (p : Payload) : Payload :=
  { p with
    evidence := p.evidence.map (List.map sanitizeEvidenceItem),
    event := { p.event with
      reason := p.event.reason.map
        (fun r => if r.length > 1000 then r.take 1000 ++ "..." else r) },
    disposition := p.disposition.map (fun d =>
      { d with
        notes := d.notes.map
          (fun m => if m.length > 2000 then m.take 2000 ++ "..." else m) }) }

/-! ## src/ingestion/src/models/storage.py and
src/ingestion/src/storage/repository.py

Rows are embedded as structures; a table is a list of rows.  The dictionary
produced by `_event_model_to_current_dict` has exactly the columns of
`exposures_current` except `updated_at` (and the auto-increment surrogate
id, which no repository code reads), and the insert branch builds the row
directly from that dictionary — so one structure serves as both, with
`updated_at := none` on a freshly converted dictionary.  `datetime.utcnow()`
is modelled by an explicit `now` argument.

Crucially, the import block of repository.py (lines 5-10) binds only
`datetime`, the typing helpers, `Session` and the three model classes; the
names `insert` (line 81), `sanitize_payload` (line 175) and
`QuarantinedFile` (line 311) are used but never bound anywhere in the
module, so evaluating any of those lines raises `NameError`.  Python
exceptions are modelled with `Except PyError`: a repository entry point
that reaches one of those lines returns `Except.error`.  The pure helper
routines (`_event_model_to_current_dict`, `_manual_upsert` and its loop
body) contain no unbound name and are embedded as total functions — they
describe the text of the merge routine, which at run time is unreachable
because `_upsert_chunk` raises first. -/

/-- Python exception raised by repository code: the unbound-name error of
the missing imports, and the integrity error of the `event_id` primary
key. -/
inductive PyError
  | nameError (name : String)
  | integrityError (msg : String)
deriving DecidableEq, Repr

/-- Row of the `exposures_current` table (model `ExposureCurrent`), which is
also the dictionary shape produced by `_event_model_to_current_dict`. -/
structure ExposureCurrent where
  office_id : String
  exposure_id : String
  exposure_class : String
  status : String
  dst_ip : Option String
  dst_port : Option Int
  protocol : String
  transport : String
  network_direction : Option String
  severity : Int
  risk_score : Option Rat
  confidence : Option Rat
  first_seen : Nat
  last_seen : Nat
  asset_id : String
  asset_hostname : Option String
  asset_ip : Option String
  asset_mac : Option String
  asset_os : Option String
  asset_managed : Option Bool
  service_name : Option String
  service_product : Option String
  service_version : Option String
  service_tls : Option Bool
  service_auth : Option String
  service_bind_scope : Option String
  service_json : Option Service
  resource_json : Option Resource
  event_action : String
  event_kind : String
  scanner_id : String
  scanner_type : String
  office_name : String
  office_region : Option String
  office_network_zone : Option String
  data_class_json : Option (List String)
  disposition_ticket : Option String
  disposition_owner : Option String
  disposition_sla : Option String
  created_at : Nat
  updated_at : Option Nat := none
deriving DecidableEq, Repr

/-- Embedding of `ExposureRepository._event_model_to_current_dict`. -/
def event_model_to_current_dict (now : Nat) (e : ExposureEventModel) : ExposureCurrent :=
  let asset := e.target.asset
  let service := e.exposure.service
  let resource := e.exposure.resource
  let first_seen := e.exposure.first_seen.getD e.timestamp
  let last_seen := e.exposure.last_seen.getD e.timestamp
  { office_id := e.office.id
    exposure_id := e.exposure.id
    exposure_class := e.exposure.class_.val
    status := e.exposure.status.val
    dst_ip := match e.exposure.vector.dst with | some d => d.ip | none => none
    dst_port := match e.exposure.vector.dst with | some d => d.port | none => none
    protocol := e.exposure.vector.protocol
    transport := e.exposure.vector.transport.val
    network_direction := e.exposure.vector.network_direction.map NetworkDirection.val
    severity := e.event.severity
    risk_score := e.event.risk_score
    confidence := e.exposure.confidence
    first_seen := first_seen
    last_seen := last_seen
    asset_id := asset.id
    asset_hostname := asset.hostname
    asset_ip := match asset.ip with | some (x :: _) => some x | _ => none
    asset_mac := asset.mac
    asset_os := asset.os
    asset_managed := asset.managed
    service_name := service.bind Service.name
    service_product := service.bind Service.product
    service_version := service.bind Service.version
    service_tls := service.bind Service.tls
    service_auth := service.bind (fun s => s.auth.map ServiceAuth.val)
    service_bind_scope := service.bind (fun s => s.bind_scope.map ServiceBindScope.val)
    service_json := service
    resource_json := resource
    event_action := e.event.action.val
    event_kind := e.event.kind.val
    scanner_id := e.scanner.id
    scanner_type := e.scanner.type
    office_name := e.office.name
    office_region := e.office.region
    office_network_zone := e.office.network_zone
    data_class_json := e.exposure.data_class.map (List.map DataClassification.val)
    disposition_ticket := e.disposition.bind Disposition.ticket
    disposition_owner := e.disposition.bind Disposition.owner
    disposition_sla := e.disposition.bind Disposition.sla
    created_at := now }

/-- Embedding of the update branch of `ExposureRepository._manual_upsert`
(lines 147-162 of repository.py): the found row is mutated in place.
First the unconditional assignments (`last_seen`, `status`, `severity`,
`event_action`, `event_kind`, `updated_at := utcnow()`), then the loop over
`data.items()` that assigns every key except `office_id`, `exposure_id`,
`first_seen` and `created_at` whenever the incoming value is not `None`.
Keys whose dictionary value is never `None` (strings from required model
fields, `severity`, `last_seen`, `asset_id`, ...) are therefore always
overwritten; optional keys keep the stored value when the incoming value
is `None`. -/
def mergeExisting (now : Nat) (r d : ExposureCurrent) : ExposureCurrent :=
  { r with
    last_seen := d.last_seen,
    status := d.status,
    severity := d.severity,
    event_action := d.event_action,
    event_kind := d.event_kind,
    updated_at := some now,
    exposure_class := d.exposure_class,
    dst_ip := d.dst_ip.or r.dst_ip,
    dst_port := d.dst_port.or r.dst_port,
    protocol := d.protocol,
    transport := d.transport,
    network_direction := d.network_direction.or r.network_direction,
    risk_score := d.risk_score.or r.risk_score,
    confidence := d.confidence.or r.confidence,
    asset_id := d.asset_id,
    asset_hostname := d.asset_hostname.or r.asset_hostname,
    asset_ip := d.asset_ip.or r.asset_ip,
    asset_mac := d.asset_mac.or r.asset_mac,
    asset_os := d.asset_os.or r.asset_os,
    asset_managed := d.asset_managed.or r.asset_managed,
    service_name := d.service_name.or r.service_name,
    service_product := d.service_product.or r.service_product,
    service_version := d.service_version.or r.service_version,
    service_tls := d.service_tls.or r.service_tls,
    service_auth := d.service_auth.or r.service_auth,
    service_bind_scope := d.service_bind_scope.or r.service_bind_scope,
    service_json := d.service_json.or r.service_json,
    resource_json := d.resource_json.or r.resource_json,
    scanner_id := d.scanner_id,
    scanner_type := d.scanner_type,
    office_name := d.office_name,
    office_region := d.office_region.or r.office_region,
    office_network_zone := d.office_network_zone.or r.office_network_zone,
    data_class_json := d.data_class_json.or r.data_class_json,
    disposition_ticket := d.disposition_ticket.or r.disposition_ticket,
    disposition_owner := d.disposition_owner.or r.disposition_owner,
    disposition_sla := d.disposition_sla.or r.disposition_sla }

/-- Whether a stored row carries the business key of the incoming
dictionary, as the `filter_by(office_id=..., exposure_id=...)` query. -/
def keyMatches (r d : ExposureCurrent) : Bool :=
  r.office_id == d.office_id && r.exposure_id == d.exposure_id

/-- The `session.query(ExposureCurrent).filter_by(...).first()` lookup. -/
def findExisting (store : List ExposureCurrent) (d : ExposureCurrent) :
    Option ExposureCurrent :=
  store.find? (fun r => keyMatches r d)

/-- In-place mutation of the first row matching the business key. -/
def updateFirstMatch (now : Nat) : List ExposureCurrent → ExposureCurrent →
    List ExposureCurrent
  | [], _ => []
  | r :: rs, d =>
      if keyMatches r d then mergeExisting now r d :: rs
      else r :: updateFirstMatch now rs d

/-- One iteration of the `_manual_upsert` loop on the running state
`(store, inserted, updated)`. -/
def manualUpsertStep (now : Nat) (acc : List ExposureCurrent × Nat × Nat)
    (d : ExposureCurrent) : List ExposureCurrent × Nat × Nat :=
  let (store, inserted, updated) := acc
  match findExisting store d with
  | some _ => (updateFirstMatch now store d, inserted, updated + 1)
  | none => (store ++ [d], inserted + 1, updated)

/-- Embedding of `ExposureRepository._manual_upsert`: sequential
read-modify-write over the converted dictionaries, returning the new store
together with the `(inserted, updated)` counts.  The `session.add` of the
insert branch is visible to the lookup for later dictionaries of the same
batch (SQLAlchemy flushes pending rows on query). -/
def manual_upsert (now : Nat) (ds : List ExposureCurrent)
    (store : List ExposureCurrent) : List ExposureCurrent × Nat × Nat :=
  ds.foldl (manualUpsertStep now) (store, 0, 0)

set_option linter.unusedVariables false in
/-- Embedding of `ExposureRepository._upsert_chunk`.  Line 78 builds the
converted dictionaries (pure, succeeds); line 81, `stmt =
insert(ExposureCurrent)`, then evaluates the unbound name `insert` — never
bound by any import of repository.py — and raises `NameError`.
That line precedes the `try:` at line 111, so the bare `except` never
runs and the `_manual_upsert` fallback is unreachable: every chunk upsert
raises. -/
def upsert_chunk (now : Nat) (events : List ExposureEventModel)
    (store : List ExposureCurrent) : Except PyError (List ExposureCurrent × Nat × Nat) :=
  let _current_dicts := events.map (event_model_to_current_dict now)
  Except.error (PyError.nameError "insert")

/-- Embedding of `ExposureRepository.batch_upsert_current`: an empty input
returns zero counts; otherwise the events are processed in chunks of
`BATCH_SIZE = 500` with per-chunk counts accumulated — but the first
chunk upsert raises `NameError` (see `upsert_chunk`), which propagates. -/
def batch_upsert_current (now : Nat) (events : List ExposureEventModel)
    (store : List ExposureCurrent) : Except PyError (List ExposureCurrent × Nat × Nat) :=
  if events.isEmpty then Except.ok (store, 0, 0)
  else
    (chunksOf 500 events).foldlM
      (fun acc chunk => do
        let (st, ins, upd) := acc
        let (st2, i, u) ← upsert_chunk now chunk st
        pure (st2, ins + i, upd + u))
      (store, 0, 0)

/-- Row of the append-only `exposure_events` table (model `ExposureEvent`),
which is also the dictionary shape produced by `_event_model_to_dict`. -/
structure ExposureEvent where
  event_id : String
  timestamp : Nat
  office_id : String
  asset_id : String
  exposure_id : String
  exposure_class : String
  exposure_status : String
  event_action : String
  event_kind : String
  severity : Int
  risk_score : Option Rat
  confidence : Option Rat
  dst_ip : Option String
  dst_port : Option Int
  protocol : String
  transport : String
  network_direction : Option String
  service_json : Option Service
  resource_json : Option Resource
  scanner_id : String
  scanner_type : String
  scan_run_id : Option String
  dedupe_key : Option String
  raw_payload_json : Payload
  created_at : Nat
deriving DecidableEq, Repr

set_option linter.unusedVariables false in
/-- Embedding of `ExposureRepository._event_model_to_dict`.  Line 174
dumps the payload (pure, succeeds); line 175, `sanitized =
sanitize_payload(payload_dict)`, evaluates the unbound name
`sanitize_payload` — repository.py never imports it from
src/utils/security.py — and raises `NameError` on every call, before the
row dictionary is built. -/
def event_model_to_dict (now : Nat) (e : ExposureEventModel) :
    Except PyError ExposureEvent :=
  let _payload_dict := model_dump e
  Except.error (PyError.nameError "sanitize_payload")

/-- Single-row append honouring the `event_id` primary key of the
append-only table: a duplicate identifier is a constraint violation,
surfaced as an integrity error. -/
def insertEventRow (store : List ExposureEvent) (row : ExposureEvent) :
    Except PyError (List ExposureEvent) :=
  if store.any (fun r => r.event_id == row.event_id) then
    Except.error (PyError.integrityError "duplicate event_id")
  else Except.ok (store ++ [row])

/-- The `session.bulk_insert_mappings(ExposureEvent, chunk)` call: every
row of the chunk is appended, in order, under the primary-key constraint. -/
def bulk_insert_mappings (store : List ExposureEvent) (rows : List ExposureEvent) :
    Except PyError (List ExposureEvent) :=
  rows.foldlM insertEventRow store

/-- Embedding of `ExposureRepository.batch_insert_events`: an empty input
inserts nothing; otherwise line 36 converts every event with
`_event_model_to_dict` — which raises `NameError` on the first event —
before the chunked appends (`total_inserted += len(chunk)`) could run. -/
def batch_insert_events (now : Nat) (events : List ExposureEventModel)
    (store : List ExposureEvent) : Except PyError (List ExposureEvent × Nat) :=
  if events.isEmpty then Except.ok (store, 0)
  else do
    let event_dicts ← events.mapM (event_model_to_dict now)
    (chunksOf 500 event_dicts).foldlM
      (fun acc chunk =>
        (bulk_insert_mappings acc.1 chunk).map (fun st => (st, acc.2 + chunk.length)))
      (store, 0)

/-- The two stores `ingest_events` writes to. -/
structure Database where
  events : List ExposureEvent
  current : List ExposureCurrent
deriving DecidableEq, Repr

/-- The structured counter object returned by `ingest_events`. -/
structure IngestStats where
  events_inserted : Nat
  exposures_inserted : Nat
  exposures_updated : Nat
deriving DecidableEq, Repr

/-- Embedding of the module-level `ingest_events` coordinator: early return
of zero counts on an empty batch, otherwise append to the audit table,
merge into the current-state table and report the three counters.  On any
non-empty batch the audit append raises `NameError` (unbound
`sanitize_payload`) and the error propagates to the caller. -/
def ingest_events (now : Nat) (events : List ExposureEventModel)
    (db : Database) : Except PyError (Database × IngestStats) :=
  if events.isEmpty then
    Except.ok (db, { events_inserted := 0, exposures_inserted := 0, exposures_updated := 0 })
  else do
    let (audit, events_inserted) ← batch_insert_events now events db.events
    let (current, inserted, updated) ← batch_upsert_current now events db.current
    pure ({ events := audit, current := current },
          { events_inserted := events_inserted,
            exposures_inserted := inserted,
            exposures_updated := updated })

/-- Row of the `quarantined_files` table (model `QuarantinedFile`); the
JSON error-details blob is carried opaquely. -/
structure QuarantinedFile where
  filename : String
  file_size : Option Int := none
  file_hash : Option String := none
  error_type : String
  error_message : String
  error_details_json : Option String := none
  scanner_type : Option String := none
  office_id : Option String := none
deriving DecidableEq, Repr

/-- Session state seen by `quarantine_file`: the quarantine table plus
whether the underlying store would fail a commit (connectivity loss,
transaction failure).  The method raises before it ever reaches the
session, so neither component is consulted. -/
structure QuarantineSession where
  quarantined_files : List QuarantinedFile
  commit_fails : Bool
deriving DecidableEq, Repr

set_option linter.unusedVariables false in
/-- Embedding of `ExposureRepository.quarantine_file`.  Line 311,
`quarantined = QuarantinedFile(...)`, evaluates the unbound name
`QuarantinedFile` — repository.py never imports it from
src/models/storage.py — and raises `NameError` on every call, before the
record is built and before `session.add`/`session.commit` run; the method
has no exception handling, so the error propagates to the caller whatever
the state of the store. -/
def quarantine_file (sess : QuarantineSession) (filename error_type error_message : String)
    (error_details : Option String) (file_size : Option Int) (file_hash : Option String)
    (scanner_type : Option String) (office_id : Option String) :
    Except PyError QuarantineSession :=
  Except.error (PyError.nameError "QuarantinedFile")

/-! ## Helper lemmas -/

/-- Chunking with positive chunk size only partitions the list: the chunks
concatenate back to the input. -/
theorem chunksOfGo_flatten {α : Type _} {n : Nat} (hn : 0 < n) :
    ∀ (fuel : Nat) (l : List α), l.length ≤ fuel →
      (chunksOfGo n fuel l).flatten = l := by
  intro fuel
  induction fuel with
  | zero =>
    intro l hl
    cases l with
    | nil => rfl
    | cons x xs => simp at hl
  | succ fuel ih =>
    intro l hl
    cases l with
    | nil => rfl
    | cons x xs =>
      show ((x :: xs).take n :: chunksOfGo n fuel ((x :: xs).drop n)).flatten = x :: xs
      rw [List.flatten_cons,
        ih ((x :: xs).drop n)
          (by simp only [List.length_drop, List.length_cons] at hl ⊢; omega),
        List.take_append_drop]

/-- The `chunksOf` partition property at the top level. -/
theorem chunksOf_flatten {α : Type _} {n : Nat} (hn : 0 < n) (l : List α) :
    (chunksOf n l).flatten = l :=
  chunksOfGo_flatten hn l.length l le_rfl

/-- Folding the manual upsert from shifted counters just shifts the
resulting counters. -/
theorem manual_upsert_shift (now : Nat) :
    ∀ (ds : List ExposureCurrent) (store : List ExposureCurrent) (a b : Nat),
      ds.foldl (manualUpsertStep now) (store, a, b) =
        ((manual_upsert now ds store).1,
          a + (manual_upsert now ds store).2.1,
          b + (manual_upsert now ds store).2.2) := by
  intro ds
  induction ds with
  | nil => intro store a b; simp [manual_upsert]
  | cons d ds ih =>
    intro store a b
    have hstep : ∀ (s : List ExposureCurrent) (x y : Nat),
        manualUpsertStep now (s, x, y) d =
          ((manualUpsertStep now (s, 0, 0) d).1,
            x + (manualUpsertStep now (s, 0, 0) d).2.1,
            y + (manualUpsertStep now (s, 0, 0) d).2.2) := by
      intro s x y
      unfold manualUpsertStep
      rcases hfd : findExisting s d with _ | v <;> simp [hfd]
    rcases hres : manualUpsertStep now (store, 0, 0) d with ⟨s0, i0, u0⟩
    have hcons : manual_upsert now (d :: ds) store =
        List.foldl (manualUpsertStep now) (s0, i0, u0) ds := by
      unfold manual_upsert
      rw [List.foldl_cons, hres]
    rw [List.foldl_cons, hstep store a b, hres, hcons]
    simp only []
    rw [ih, ih]
    simp [Nat.add_assoc]

/-- The manual upsert processes an appended batch sequentially: states
compose and the `(inserted, updated)` counters add. -/
theorem manual_upsert_append (now : Nat) (ds₁ ds₂ : List ExposureCurrent)
    (store : List ExposureCurrent) :
    manual_upsert now (ds₁ ++ ds₂) store =
      ((manual_upsert now ds₂ (manual_upsert now ds₁ store).1).1,
        (manual_upsert now ds₁ store).2.1 +
          (manual_upsert now ds₂ (manual_upsert now ds₁ store).1).2.1,
        (manual_upsert now ds₁ store).2.2 +
          (manual_upsert now ds₂ (manual_upsert now ds₁ store).1).2.2) := by
  unfold manual_upsert
  rw [List.foldl_append]
  have h1 : List.foldl (manualUpsertStep now) (store, 0, 0) ds₁ =
      manual_upsert now ds₁ store := rfl
  rw [h1]
  obtain ⟨s1, i1, u1⟩ := manual_upsert now ds₁ store
  exact manual_upsert_shift now ds₂ s1 i1 u1

/-- Converted current-state dictionaries keep the office identifier. -/
theorem dict_office_id (now : Nat) (e : ExposureEventModel) :
    (event_model_to_current_dict now e).office_id = e.office.id := rfl

/-- Converted current-state dictionaries keep the exposure identifier. -/
theorem dict_exposure_id (now : Nat) (e : ExposureEventModel) :
    (event_model_to_current_dict now e).exposure_id = e.exposure.id := rfl

/-- The converted `first_seen` is the exposure field with the timestamp
fallback. -/
theorem dict_first_seen (now : Nat) (e : ExposureEventModel) :
    (event_model_to_current_dict now e).first_seen =
      e.exposure.first_seen.getD e.timestamp := rfl

/-- The converted `last_seen` is the exposure field with the timestamp
fallback. -/
theorem dict_last_seen (now : Nat) (e : ExposureEventModel) :
    (event_model_to_current_dict now e).last_seen =
      e.exposure.last_seen.getD e.timestamp := rfl

/-- In-place update walks past a prefix that does not carry the key. -/
theorem updateFirstMatch_append (now : Nat) (d : ExposureCurrent) :
    ∀ (l₁ : List ExposureCurrent), (∀ r ∈ l₁, keyMatches r d = false) →
      ∀ (l₂ : List ExposureCurrent),
        updateFirstMatch now (l₁ ++ l₂) d = l₁ ++ updateFirstMatch now l₂ d := by
  intro l₁
  induction l₁ with
  | nil => intro _ l₂; rfl
  | cons r rs ih =>
    intro h l₂
    have hr := h r (by simp)
    show (if keyMatches r d = true then mergeExisting now r d :: (rs ++ l₂)
      else r :: updateFirstMatch now (rs ++ l₂) d) = r :: (rs ++ updateFirstMatch now l₂ d)
    rw [hr]
    simp only [Bool.false_eq_true, if_false]
    rw [ih (fun x hx => h x (by simp [hx])) l₂]

/-- A singleton upsert against a store with no row for the key appends the
dictionary and counts one insert. -/
theorem manual_upsert_insert_case (now : Nat) (d : ExposureCurrent)
    (store : List ExposureCurrent) (h : ∀ r ∈ store, keyMatches r d = false) :
    manual_upsert now [d] store = (store ++ [d], 1, 0) := by
  have hfind : findExisting store d = none := by
    rw [findExisting, List.find?_eq_none]
    intro r hr
    simp [h r hr]
  show manualUpsertStep now (store, 0, 0) d = _
  simp [manualUpsertStep, hfind]

/-- A singleton upsert against a store whose sole row carries the key
merges in place and counts one update. -/
theorem manual_upsert_update_case (now : Nat) (d r : ExposureCurrent)
    (h : keyMatches r d = true) :
    manual_upsert now [d] [r] = ([mergeExisting now r d], 0, 1) := by
  have hfind : findExisting [r] d = some r := by
    simp [findExisting, List.find?, h]
  show manualUpsertStep now ([r], 0, 0) d = _
  simp [manualUpsertStep, hfind, updateFirstMatch, h]

/-- Monotonic-enrichment shape of one merged optional column: a null
incoming value keeps the stored one, a non-null incoming value overwrites. -/
def enriches {α : Type _} (incoming stored result : Option α) : Prop :=
  (incoming = none → result = stored) ∧ ∀ v, incoming = some v → result = some v

/-- The Python null-guarded assignment realizes `enriches`. -/
theorem enriches_or {α : Type _} (a b : Option α) : enriches a b (a.or b) := by
  cases a <;> simp [enriches]

/-- Length of a capped string with the appended truncation marker. -/
theorem trunc_length (s : String) (cap : Nat) (h : cap < s.length) :
    (s.take cap ++ "...").length = cap + 3 := by
  have htake : (s.take cap).length = cap := by
    show (s.take cap).data.length = cap
    rw [String.data_take]
    have : s.data.length = s.length := rfl
    rw [List.length_take]
    omega
  rw [String.length_append, htake]
  rfl

/-! ## Concrete fixtures

Sample canonical events used by witnesses and counterexamples.  All of
them satisfy the canonical-model validation rules (severity in range,
destination port present for a port-bearing class on tcp, status/action
aligned). -/

/-- A tcp vector to a database port. -/
def sampleVectorDB : Vector :=
  { transport := .tcp, protocol := "postgres",
    dst := some { ip := some "10.0.0.5", port := some (5432 : Int) } }

/-- First observation of exposure `exp-1` at office `office-1`. -/
def sampleEvent1 : ExposureEventModel :=
  { schema_version := "1.0.0"
    timestamp := 100
    event := { id := "evt-1", kind := .state, action := .exposure_observed, severity := 70 }
    office := { id := "office-1", name := "HQ" }
    scanner := { id := "scanner-1", type := "nmap" }
    target := { asset := { id := "asset-1" } }
    exposure := { id := "exp-1", class_ := .db_exposed, status := .open,
                  vector := sampleVectorDB,
                  service := some { product := some "nginx 1.18" },
                  first_seen := some 100, last_seen := some 100 } }

/-- A later, distinct observation of the same exposure: different event
identifier, same business key, null service product, later `last_seen`. -/
def sampleEvent2 : ExposureEventModel :=
  { schema_version := "1.0.0"
    timestamp := 200
    event := { id := "evt-2", kind := .state, action := .exposure_observed, severity := 80 }
    office := { id := "office-1", name := "HQ" }
    scanner := { id := "scanner-1", type := "nmap" }
    target := { asset := { id := "asset-1" } }
    exposure := { id := "exp-1", class_ := .db_exposed, status := .observed,
                  vector := sampleVectorDB,
                  service := some { name := some "postgres" },
                  first_seen := none, last_seen := some 200 } }

/-- A stale observation of the same exposure: its `last_seen` (50) is older
than the one already stored (100). -/
def sampleEventOld : ExposureEventModel :=
  { schema_version := "1.0.0"
    timestamp := 150
    event := { id := "evt-3", kind := .state, action := .exposure_observed, severity := 60 }
    office := { id := "office-1", name := "HQ" }
    scanner := { id := "scanner-1", type := "nmap" }
    target := { asset := { id := "asset-1" } }
    exposure := { id := "exp-1", class_ := .db_exposed, status := .observed,
                  vector := sampleVectorDB,
                  first_seen := none, last_seen := some 50 } }

/-- An event with `first_seen` absent but `last_seen` present, and a
timestamp differing from both. -/
def sampleEventNoFirst : ExposureEventModel :=
  { schema_version := "1.0.0"
    timestamp := 30
    event := { id := "evt-4", kind := .state, action := .exposure_observed, severity := 40 }
    office := { id := "office-1", name := "HQ" }
    scanner := { id := "scanner-1", type := "nmap" }
    target := { asset := { id := "asset-4" } }
    exposure := { id := "exp-4", class_ := .db_exposed, status := .open,
                  vector := sampleVectorDB,
                  first_seen := none, last_seen := some 80 } }

/-! ## Claim theorems -/

set_option maxRecDepth 100000

/-- Grounding of the SHA-256 embedding on the FIPS 180-4 test vector. -/
theorem sha256_fips_vector :
    String.mk (hexChars (sha256 (utf8Bytes "abc"))) =
      "ba7816bf8f01cfea414140de5dae2223b00361a396177a9cb410ff61f20015ad" := by rfl

/-- Taking `2 * n` hex characters is rendering the first `n` bytes. -/
theorem hexChars_take : ∀ (bs : List Nat) (n : Nat),
    (hexChars bs).take (2 * n) = hexChars (bs.take n) := by
  intro bs
  induction bs with
  | nil => intro n; simp [hexChars]
  | cons b bs ih =>
    intro n
    cases n with
    | zero => simp [hexChars]
    | succ n =>
      show (hexChars (b :: bs)).take (2 * (n + 1)) = hexChars ((b :: bs).take (n + 1))
      have h2 : 2 * (n + 1) = (2 * n) + 1 + 1 := by omega
      simp only [hexChars, List.take_succ_cons, h2]
      rw [ih n]

/-- C3 counterexample: in the only merge routine of the program
(`_manual_upsert`), merging a stale observation (incoming `last_seen = 50`)
into a row whose stored `last_seen` is 100 leaves the row at 50, not at
the claimed `max` of 100 — and the chunk upsert wrapping that routine
raises `NameError` before either merge path, so no merge ever stores the
`max` either. -/
theorem merge_last_seen_not_max_cex :
    (manual_upsert 300 [event_model_to_current_dict 300 sampleEventOld]
        [event_model_to_current_dict 100 sampleEvent1]).1.map ExposureCurrent.last_seen
      = [50] ∧
    max (event_model_to_current_dict 100 sampleEvent1).last_seen
        (event_model_to_current_dict 300 sampleEventOld).last_seen = 100 ∧
    ¬((manual_upsert 300 [event_model_to_current_dict 300 sampleEventOld]
        [event_model_to_current_dict 100 sampleEvent1]).1.map ExposureCurrent.last_seen
      = [max (event_model_to_current_dict 100 sampleEvent1).last_seen
            (event_model_to_current_dict 300 sampleEventOld).last_seen]) ∧
    upsert_chunk 300 [sampleEventOld] [event_model_to_current_dict 100 sampleEvent1] =
      Except.error (PyError.nameError "insert") := by
  refine ⟨by decide, by decide, by decide, rfl⟩

/-- C3 (amended): the update branch of `_manual_upsert` — the only merge
routine in the program, unreachable at run time because `_upsert_chunk`
raises `NameError` (unbound `insert`) before it — overwrites the stored
`last_seen` unconditionally with the incoming value (the exposure field,
falling back to the event timestamp), so the stored value would move
backwards for an older incoming observation; no `max` is taken anywhere. -/
theorem merge_overwrites_last_seen (now : Nat) (r : ExposureCurrent)
    (e : ExposureEventModel)
    (h : keyMatches r (event_model_to_current_dict now e) = true) :
    manual_upsert now [event_model_to_current_dict now e] [r] =
      ([mergeExisting now r (event_model_to_current_dict now e)], 0, 1) ∧
    (mergeExisting now r (event_model_to_current_dict now e)).last_seen =
      e.exposure.last_seen.getD e.timestamp ∧
    upsert_chunk now [e] [r] = Except.error (PyError.nameError "insert") := by
  refine ⟨manual_upsert_update_case now _ r h, ?_, rfl⟩
  show (event_model_to_current_dict now e).last_seen = _
  exact dict_last_seen now e

/-- C3 amended witness: the stale observation applied to the stored row. -/
theorem merge_overwrites_last_seen_witness :
    keyMatches (event_model_to_current_dict 100 sampleEvent1)
        (event_model_to_current_dict 300 sampleEventOld) = true ∧
    (mergeExisting 300 (event_model_to_current_dict 100 sampleEvent1)
        (event_model_to_current_dict 300 sampleEventOld)).last_seen =
      sampleEventOld.exposure.last_seen.getD sampleEventOld.timestamp ∧
    upsert_chunk 300 [sampleEventOld] [event_model_to_current_dict 100 sampleEvent1] =
      Except.error (PyError.nameError "insert") :=
  ⟨by decide,
    (merge_overwrites_last_seen 300 (event_model_to_current_dict 100 sampleEvent1)
      sampleEventOld (by decide)).2.1,
    (merge_overwrites_last_seen 300 (event_model_to_current_dict 100 sampleEvent1)
      sampleEventOld (by decide)).2.2⟩

/-- C4 counterexample: the dictionary built by
`_event_model_to_current_dict` for an event with `first_seen` absent,
`last_seen = 80` and `timestamp = 30` carries `first_seen = 30` (the
timestamp), not the claimed fallback through `last_seen` (80); the insert
branch of `_manual_upsert` would store that dictionary unchanged, and the
chunk upsert wrapping it raises `NameError` before any insert, so no row
with the claimed value is ever produced. -/
theorem insert_first_seen_fallback_cex :
    sampleEventNoFirst.exposure.first_seen = none ∧
    sampleEventNoFirst.exposure.last_seen = some 80 ∧
    sampleEventNoFirst.timestamp = 30 ∧
    (manual_upsert 300 [event_model_to_current_dict 300 sampleEventNoFirst] []).1.map
      ExposureCurrent.first_seen = [30] ∧
    ¬((manual_upsert 300 [event_model_to_current_dict 300 sampleEventNoFirst] []).1.map
      ExposureCurrent.first_seen = [80]) ∧
    batch_upsert_current 300 [sampleEventNoFirst] [] =
      Except.error (PyError.nameError "insert") := by
  refine ⟨by decide, by decide, by decide, by decide, by decide, rfl⟩

/-- C4 (amended): in the insert branch of `_manual_upsert` — unreachable
at run time because `_upsert_chunk` raises `NameError` (unbound `insert`)
before it — a merge that finds no existing row inserts the converted
dictionary, whose fields are `first_seen = event.first_seen or
event.timestamp` and `last_seen = event.last_seen or event.timestamp`:
two independent fallbacks to the timestamp, not one chain through
`last_seen`. -/
theorem insert_seen_fallbacks (now : Nat) (e : ExposureEventModel)
    (store : List ExposureCurrent)
    (h : ∀ r ∈ store, keyMatches r (event_model_to_current_dict now e) = false) :
    manual_upsert now [event_model_to_current_dict now e] store =
      (store ++ [event_model_to_current_dict now e], 1, 0) ∧
    (event_model_to_current_dict now e).first_seen =
      e.exposure.first_seen.getD e.timestamp ∧
    (event_model_to_current_dict now e).last_seen =
      e.exposure.last_seen.getD e.timestamp ∧
    upsert_chunk now [e] store = Except.error (PyError.nameError "insert") :=
  ⟨manual_upsert_insert_case now _ store h, dict_first_seen now e, dict_last_seen now e,
    rfl⟩

/-- C4 amended witness: the fixture event inserted into an empty store. -/
theorem insert_seen_fallbacks_witness :
    manual_upsert 300 [event_model_to_current_dict 300 sampleEventNoFirst] [] =
      ([event_model_to_current_dict 300 sampleEventNoFirst], 1, 0) ∧
    (event_model_to_current_dict 300 sampleEventNoFirst).first_seen =
      sampleEventNoFirst.exposure.first_seen.getD sampleEventNoFirst.timestamp ∧
    (event_model_to_current_dict 300 sampleEventNoFirst).last_seen =
      sampleEventNoFirst.exposure.last_seen.getD sampleEventNoFirst.timestamp ∧
    upsert_chunk 300 [sampleEventNoFirst] [] = Except.error (PyError.nameError "insert") :=
  insert_seen_fallbacks 300 sampleEventNoFirst [] (by simp)

/-- C5: the update branch of the merge never touches `first_seen` or the
business key, whatever the incoming dictionary contains. -/
theorem merge_preserves_first_seen_and_key (now : Nat) (r d : ExposureCurrent) :
    (mergeExisting now r d).first_seen = r.first_seen ∧
    (mergeExisting now r d).office_id = r.office_id ∧
    (mergeExisting now r d).exposure_id = r.exposure_id :=
  ⟨rfl, rfl, rfl⟩

/-- C6: merging into an existing row counts one update, and every optional
descriptive column is enriched monotonically — a null incoming value keeps
the stored value, a non-null incoming value overwrites it. -/
theorem monotonic_enrichment (now : Nat) (r d : ExposureCurrent)
    (h : keyMatches r d = true) :
    manual_upsert now [d] [r] = ([mergeExisting now r d], 0, 1) ∧
    enriches d.service_product r.service_product (mergeExisting now r d).service_product ∧
    enriches d.service_name r.service_name (mergeExisting now r d).service_name ∧
    enriches d.service_version r.service_version (mergeExisting now r d).service_version ∧
    enriches d.service_tls r.service_tls (mergeExisting now r d).service_tls ∧
    enriches d.service_auth r.service_auth (mergeExisting now r d).service_auth ∧
    enriches d.service_bind_scope r.service_bind_scope (mergeExisting now r d).service_bind_scope ∧
    enriches d.service_json r.service_json (mergeExisting now r d).service_json ∧
    enriches d.resource_json r.resource_json (mergeExisting now r d).resource_json ∧
    enriches d.dst_ip r.dst_ip (mergeExisting now r d).dst_ip ∧
    enriches d.dst_port r.dst_port (mergeExisting now r d).dst_port ∧
    enriches d.network_direction r.network_direction (mergeExisting now r d).network_direction ∧
    enriches d.risk_score r.risk_score (mergeExisting now r d).risk_score ∧
    enriches d.confidence r.confidence (mergeExisting now r d).confidence ∧
    enriches d.asset_hostname r.asset_hostname (mergeExisting now r d).asset_hostname ∧
    enriches d.asset_ip r.asset_ip (mergeExisting now r d).asset_ip ∧
    enriches d.asset_mac r.asset_mac (mergeExisting now r d).asset_mac ∧
    enriches d.asset_os r.asset_os (mergeExisting now r d).asset_os ∧
    enriches d.asset_managed r.asset_managed (mergeExisting now r d).asset_managed ∧
    enriches d.office_region r.office_region (mergeExisting now r d).office_region ∧
    enriches d.office_network_zone r.office_network_zone (mergeExisting now r d).office_network_zone ∧
    enriches d.data_class_json r.data_class_json (mergeExisting now r d).data_class_json ∧
    enriches d.disposition_ticket r.disposition_ticket (mergeExisting now r d).disposition_ticket ∧
    enriches d.disposition_owner r.disposition_owner (mergeExisting now r d).disposition_owner ∧
    enriches d.disposition_sla r.disposition_sla (mergeExisting now r d).disposition_sla :=
  ⟨manual_upsert_update_case now d r h,
    enriches_or _ _, enriches_or _ _, enriches_or _ _, enriches_or _ _, enriches_or _ _,
    enriches_or _ _, enriches_or _ _, enriches_or _ _, enriches_or _ _, enriches_or _ _,
    enriches_or _ _, enriches_or _ _, enriches_or _ _, enriches_or _ _, enriches_or _ _,
    enriches_or _ _, enriches_or _ _, enriches_or _ _, enriches_or _ _, enriches_or _ _,
    enriches_or _ _, enriches_or _ _, enriches_or _ _, enriches_or _ _⟩

/-- C6 witness: the stored row has `service_product = "nginx 1.18"`, the
incoming observation has a null product; after the merge the literal
stored value survives and the update counter is 1. -/
theorem monotonic_enrichment_witness :
    keyMatches (event_model_to_current_dict 100 sampleEvent1)
        (event_model_to_current_dict 200 sampleEvent2) = true ∧
    (event_model_to_current_dict 200 sampleEvent2).service_product = none ∧
    (event_model_to_current_dict 100 sampleEvent1).service_product = some "nginx 1.18" ∧
    (mergeExisting 200 (event_model_to_current_dict 100 sampleEvent1)
        (event_model_to_current_dict 200 sampleEvent2)).service_product = some "nginx 1.18" ∧
    (manual_upsert 200 [event_model_to_current_dict 200 sampleEvent2]
        [event_model_to_current_dict 100 sampleEvent1]).2.2 = 1 := by
  refine ⟨by decide, by decide, by decide, ?_, ?_⟩
  · have hmerge := (monotonic_enrichment 200 (event_model_to_current_dict 100 sampleEvent1)
      (event_model_to_current_dict 200 sampleEvent2) (by decide)).2.1
    rw [hmerge.1 (by decide)]
    decide
  · rw [(monotonic_enrichment 200 (event_model_to_current_dict 100 sampleEvent1)
      (event_model_to_current_dict 200 sampleEvent2) (by decide)).1]

/-- C7: `generate_exposure_id` computes exactly the first 16 digest bytes
of SHA-256 over the pipe-joined six fields, rendered as 32 hex characters
(`exposureIdSpec` is the wording of the specification), and an absent
`dst_port` is rendered as the empty string, not a sentinel. -/
theorem exposure_id_matches_spec (office_id asset_id dst_ip : String)
    (dst_port : Option Int) (protocol exposure_class : String) :
    generate_exposure_id office_id asset_id dst_ip dst_port protocol exposure_class =
      exposureIdSpec office_id asset_id dst_ip dst_port protocol exposure_class ∧
    portStr none = "" ∧
    (∀ q : Int, portStr (some q) = toString q) := by
  refine ⟨?_, rfl, fun q => rfl⟩
  have h32 : (32 : Nat) = 2 * 16 := by omega
  show String.mk ((hexChars (sha256 (utf8Bytes (exposureComponents office_id asset_id
    dst_ip dst_port protocol exposure_class)))).take 32) = _
  rw [h32, hexChars_take]
  rfl

/-- C8: a null `service_product` and an explicitly empty one hash to the
same dedupe key, and the dedupe key is the `exposure_id` construction
(the same pipe-joined six fields) with the product appended as a seventh
pipe-separated field. -/
theorem dedupe_key_null_product (office_id asset_id dst_ip : String)
    (dst_port : Option Int) (protocol exposure_class : String)
    (service_product : Option String) :
    generate_dedupe_key office_id asset_id dst_ip dst_port protocol exposure_class none =
      generate_dedupe_key office_id asset_id dst_ip dst_port protocol exposure_class
        (some "") ∧
    generate_dedupe_key office_id asset_id dst_ip dst_port protocol exposure_class
        service_product =
      String.mk ((hexChars (sha256 (utf8Bytes
        (exposureComponents office_id asset_id dst_ip dst_port protocol exposure_class
          ++ "|" ++ pyOrStr service_product "")))).take 32) ∧
    pyOrStr none "" = "" := by
  refine ⟨?_, rfl, rfl⟩
  unfold generate_dedupe_key
  simp [pyOrStr]

/-- C10 counterexample: even against a perfectly healthy store (a commit
that would succeed), `quarantine_file` raises — the record constructor
name `QuarantinedFile` is unbound in repository.py — so the operation does
raise to its caller, refuting the never-raises contract. -/
theorem quarantine_raises_cex :
    quarantine_file { quarantined_files := [], commit_fails := false }
      "bad.xml" "XMLParseError" "parse failed" none none none none none =
      Except.error (PyError.nameError "QuarantinedFile") := rfl

/-- C10 (amended): for every combination of arguments and every store
state, `quarantine_file` raises `NameError` (the unbound `QuarantinedFile`
at line 311) before the record is built or committed; the method has no
exception handling, so nothing is dropped — every call propagates the
error to the caller and never appends a quarantine record. -/
theorem quarantine_always_raises (sess : QuarantineSession)
    (filename error_type error_message : String) (details : Option String)
    (file_size : Option Int) (file_hash : Option String)
    (scanner_type office_id : Option String) :
    quarantine_file sess filename error_type error_message details file_size
      file_hash scanner_type office_id =
      Except.error (PyError.nameError "QuarantinedFile") := rfl

/-- C2 (code bug): for every non-empty event list — whatever the
identifiers — the coordinator raises `NameError` from the unbound
`sanitize_payload` in `_event_model_to_dict` instead of returning the
`{events_inserted, exposures_inserted, exposures_updated}` counter object;
only the empty batch returns counters.  The integration tests of the
repository call `ingest_events` on non-empty batches and assert the
returned counters, so the missing import contradicts the tests. -/
theorem ingest_raises_on_nonempty (now : Nat) (events : List ExposureEventModel)
    (db : Database) (h : events ≠ []) :
    ingest_events now events db = Except.error (PyError.nameError "sanitize_payload") := by
  cases events with
  | nil => exact absurd rfl h
  | cons e es => rfl

/-- C2 witness: a singleton batch into an empty database raises. -/
theorem ingest_raises_on_nonempty_witness :
    ([sampleEvent1] : List ExposureEventModel) ≠ [] ∧
    ingest_events 100 [sampleEvent1] { events := [], current := [] } =
      Except.error (PyError.nameError "sanitize_payload") :=
  ⟨by simp, ingest_raises_on_nonempty 100 [sampleEvent1]
    { events := [], current := [] } (by simp)⟩

/-- C1 (code bug): the re-ingestion scenario can never commit — both
ingestion calls raise `NameError` (unbound `sanitize_payload`) before any
row is written, so no reconciliation row for the business key ever exists,
let alone exactly one with a preserved `first_seen`.  The repository
integration tests assert exactly the claimed scenario (one row, preserved
`first_seen`) and fail against this code. -/
theorem reingestion_never_commits :
    sampleEvent2.office.id = sampleEvent1.office.id ∧
    sampleEvent2.exposure.id = sampleEvent1.exposure.id ∧
    sampleEvent2.event.id ≠ sampleEvent1.event.id ∧
    ingest_events 100 [sampleEvent1] { events := [], current := [] } =
      Except.error (PyError.nameError "sanitize_payload") ∧
    ingest_events 200 [sampleEvent2] { events := [], current := [] } =
      Except.error (PyError.nameError "sanitize_payload") :=
  ⟨rfl, rfl, by decide, rfl, rfl⟩

/-- Sanitized HTTP evidence has no raw-body slots and a capped title. -/
theorem sanitizeHTTP_props (hs : HTTPEvidencePayload) :
    (sanitizeHTTP hs).body = none ∧ (sanitizeHTTP hs).response_body = none ∧
    ∀ t2, (sanitizeHTTP hs).title = some t2 →
      t2.length ≤ 503 ∧
      (t2.length ≤ 500 ∨
       ∃ t : String, t.length > 500 ∧ t2 = t.take 500 ++ "..." ∧ t2.length = 503) := by
  refine ⟨rfl, rfl, ?_⟩
  intro t2 ht2
  have htitle : (sanitizeHTTP hs).title = hs.title.map
      (fun t => if t.length > 500 then t.take 500 ++ "..." else t) := rfl
  rw [htitle] at ht2
  cases hst : hs.title with
  | none => rw [hst] at ht2; exact absurd ht2 (by simp)
  | some t =>
    rw [hst, Option.map_some'] at ht2
    have ht2v : (if t.length > 500 then t.take 500 ++ "..." else t) = t2 :=
      Option.some.inj ht2
    by_cases hlen : t.length > 500
    · rw [if_pos hlen] at ht2v
      have hl : t2.length = 503 := ht2v ▸ trunc_length t 500 hlen
      exact ⟨by omega, Or.inr ⟨t, hlen, ht2v.symm, hl⟩⟩
    · rw [if_neg hlen] at ht2v
      subst ht2v
      exact ⟨by omega, Or.inl (by omega)⟩

/-- C9: `sanitize_payload` caps the event reason at 1000 characters, the
disposition notes at 2000 and every embedded HTTP evidence title at 500,
appending the `...` marker exactly when it truncates; it removes the
raw-body slots from every evidence entry; absent optional sections are
neither added nor modified, and every other field of the payload is
returned unchanged. -/
theorem sanitize_payload_props (p : Payload) :
    ((sanitize_payload p).schema_version = p.schema_version ∧
     (sanitize_payload p).timestamp = p.timestamp ∧
     (sanitize_payload p).office = p.office ∧
     (sanitize_payload p).scanner = p.scanner ∧
     (sanitize_payload p).target = p.target ∧
     (sanitize_payload p).exposure = p.exposure ∧
     (sanitize_payload p).event.id = p.event.id ∧
     (sanitize_payload p).event.kind = p.event.kind ∧
     (sanitize_payload p).event.action = p.event.action ∧
     (sanitize_payload p).event.severity = p.event.severity ∧
     (sanitize_payload p).event.risk_score = p.event.risk_score ∧
     (sanitize_payload p).event.correlation = p.event.correlation) ∧
    (p.event.reason = none → (sanitize_payload p).event.reason = none) ∧
    (∀ r, p.event.reason = some r → ∃ r2,
      (sanitize_payload p).event.reason = some r2 ∧
      ((r.length ≤ 1000 ∧ r2 = r) ∨
       (r.length > 1000 ∧ r2 = r.take 1000 ++ "..." ∧ r2.length = 1003))) ∧
    (p.disposition = none → (sanitize_payload p).disposition = none) ∧
    (∀ dsp, p.disposition = some dsp → ∃ dsp2,
      (sanitize_payload p).disposition = some dsp2 ∧
      dsp2.ticket = dsp.ticket ∧ dsp2.owner = dsp.owner ∧ dsp2.sla = dsp.sla ∧
      ((dsp.notes = none ∧ dsp2.notes = none) ∨
       ∃ m m2 : String, dsp.notes = some m ∧ dsp2.notes = some m2 ∧
         ((m.length ≤ 2000 ∧ m2 = m) ∨
          (m.length > 2000 ∧ m2 = m.take 2000 ++ "..." ∧ m2.length = 2003)))) ∧
    (p.evidence = none → (sanitize_payload p).evidence = none) ∧
    (∀ items, p.evidence = some items → ∃ items2,
      (sanitize_payload p).evidence = some items2 ∧
      items2.length = items.length ∧
      ∀ it2 ∈ items2, ∀ h2, it2.http = some h2 →
        h2.body = none ∧ h2.response_body = none ∧
        ∀ t2, h2.title = some t2 →
          t2.length ≤ 503 ∧
          (t2.length ≤ 500 ∨
           ∃ t : String, t.length > 500 ∧ t2 = t.take 500 ++ "..." ∧ t2.length = 503)) := by
  refine ⟨⟨rfl, rfl, rfl, rfl, rfl, rfl, rfl, rfl, rfl, rfl, rfl, rfl⟩, ?_, ?_, ?_, ?_, ?_, ?_⟩
  · intro h
    show (p.event.reason.map _) = none
    rw [h]
    rfl
  · intro r h
    show ∃ r2, p.event.reason.map
      (fun r => if r.length > 1000 then r.take 1000 ++ "..." else r) = some r2 ∧ _
    rw [h]
    by_cases hlen : r.length > 1000
    · refine ⟨r.take 1000 ++ "...", ?_, Or.inr ⟨hlen, rfl, trunc_length r 1000 hlen⟩⟩
      simp [Option.map_some, hlen]
    · exact ⟨r, by simp [Option.map_some, hlen], Or.inl ⟨by omega, rfl⟩⟩
  · intro h
    show (p.disposition.map _) = none
    rw [h]
    rfl
  · intro dsp h
    show ∃ dsp2, p.disposition.map _ = some dsp2 ∧ _
    rw [h]
    refine ⟨_, rfl, rfl, rfl, rfl, ?_⟩
    cases hm : dsp.notes with
    | none => exact Or.inl ⟨rfl, by simp [hm]⟩
    | some m =>
      by_cases hlen : m.length > 2000
      · exact Or.inr ⟨m, m.take 2000 ++ "...", rfl,
          by simp [hm, hlen],
          Or.inr ⟨hlen, rfl, trunc_length m 2000 hlen⟩⟩
      · exact Or.inr ⟨m, m, rfl, by simp [hm, hlen], Or.inl ⟨by omega, rfl⟩⟩
  · intro h
    show (p.evidence.map _) = none
    rw [h]
    rfl
  · intro items h
    show ∃ items2, p.evidence.map (List.map sanitizeEvidenceItem) = some items2 ∧ _
    rw [h]
    refine ⟨items.map sanitizeEvidenceItem, rfl, by simp, ?_⟩
    intro it2 hit2 h2 hh2
    rcases List.mem_map.mp hit2 with ⟨it, _, rfl⟩
    have hhttp : (sanitizeEvidenceItem it).http = it.http.map sanitizeHTTP := rfl
    rw [hhttp] at hh2
    cases hit : it.http with
    | none => rw [hit] at hh2; exact absurd hh2 (by simp)
    | some hsrc =>
      rw [hit, Option.map_some'] at hh2
      have hv : sanitizeHTTP hsrc = h2 := Option.some.inj hh2
      rw [← hv]
      exact sanitizeHTTP_props hsrc

end CTEM
